import Mathlib

/-!
Shallow embedding of `freqtrade/plugins/pairlist/CategoryFilter.py`.

The filter decides, per candidate trading pair, whether the pair's base
asset belongs to required ("include") and forbidden ("exclude") category
sets fetched from an external provider (coingecko), with a TTL cache
around the fetch.  External collaborators are parameters of the
embedding:

* `Api` models `CoinGeckoAPI.get_coins_markets(vs_currency, category)`;
  it returns the raw symbol list (the only field of the market records
  the code reads is `coin['symbol']`) or an error message.
* `base_of` / `quote_of` model
  `exchange.get_pair_base_currency` / `get_pair_quote_currency`.
* The wall clock is an explicit `now : Nat` argument; the TTL cache
  (`cachetools.TTLCache(maxsize=1, ttl=refresh_period)`) is explicit
  state (`CacheState`), threaded through the calls.

Python exceptions are modelled with `Except PyErr`; logging calls are
state free and are dropped, except where evaluating a log argument
itself raises (the `pair` name in the two fail-open warnings is unbound
there, which matters for control flow and is modelled faithfully).
-/

namespace CategoryFilter

/-- Python exception kinds that can arise in `CategoryFilter`. -/
inductive PyErr where
  | temporaryError (msg : String)
  | operationalException (msg : String)
  | nameError (name : String)
  | keyError (key : String)
  | valueError (val : String)
deriving Repr, DecidableEq

/-- Atomic Python configuration values (elements of `include` / `exclude`). -/
inductive PyAtom where
  | pystr (s : String)
  | pyint (n : Int)
  | pybool (b : Bool)
  | pynone
deriving Repr, DecidableEq

/-- A Python configuration value as found under the `include` / `exclude`
keys of `pairlistconfig`: either a list of atoms or a single atom. -/
inductive PyVal where
  | atom (a : PyAtom)
  | pylist (xs : List PyAtom)
deriving Repr, DecidableEq

/-- Python `isinstance(v, list)`. -/
def isinstance_list : PyVal → Bool
  | .pylist _ => true
  | .atom _ => false

/-- Validation loop of `CategoryFilter.__init__` (lines 84-86):
`for filter in self._filters: if not isinstance(self._filters[filter]['categories'], list):
raise OperationalException(...)`.  Dict insertion order iterates `include`
first, then `exclude`.  The constructor performs no network call: the
check is a pure function of the two raw configuration values. -/
def category_filter_init_check (inc exc : PyVal) : Except PyErr Unit :=
  if isinstance_list inc = false then
    .error (.operationalException "CategoryFilter: 'include' must be a list of strings")
  else if isinstance_list exc = false then
    .error (.operationalException "CategoryFilter: 'exclude' must be a list of strings")
  else .ok ()

/-- Modelled from the spec (refinement side for the validation claim):
"`include` and `exclude` must each be lists of strings".  This is the
predicate the spec's words describe, to be compared with the source's
`isinstance(..., list)` check. -/
def spec_isListOfStrings : PyVal → Bool
  | .pylist xs => xs.all (fun a => match a with | .pystr _ => true | _ => false)
  | .atom _ => false

/-- The two keys of the `self._filters` dict. -/
inductive RuleKind where
  | include_rule
  | exclude_rule
deriving Repr, DecidableEq

/-- Immutable filter configuration captured by `__init__`:
`include` / `exclude` category lists, `ignore_failures` (default true),
`refresh_period` (default 86400), `vs_currency` (lowercased, default
"usd"), `stake_currency` (from the global config), and the `_enabled`
flag inherited from `IPairList`. -/
structure FilterConfig where
  include_cats : List String
  exclude_cats : List String
  ignore_failures : Bool
  refresh_period : Nat
  vs_currency : String
  stake_currency : String
  enabled : Bool
deriving Repr, DecidableEq

/-- The value cached by `_cached_filter_lists`: the Python dict
`Dict[str, Dict[str, List[str]]]` with outer keys `include` / `exclude`,
inner keys the category names (association lists keyed by category). -/
structure Snapshot where
  include_lists : List (String × List String)
  exclude_lists : List (String × List String)
deriving Repr, DecidableEq

/-- The external provider: `get_coins_markets(vs_currency, category)`,
returning the raw (not yet uppercased) symbols, or an error message. -/
abbrev Api := String → String → Except String (List String)

/-- Python's `str.upper()` on the symbol strings: uppercase every
character.  (Same function as `String.toUpper = String.map Char.toUpper`,
written by structural recursion on the character list so that concrete
snapshots evaluate definitionally.) -/
def py_upper (s : String) : String := ⟨s.data.map Char.toUpper⟩

/-- Inner loop of `_fetch_filter_lists` for one filter kind: for each
category in order, call the provider; on any exception raise
`TemporaryError('Failed to fetch from coingecko: ...')`; on success store
`[coin['symbol'].upper() for coin in markets]` under the category key.
(With a deterministic provider a duplicated category key overwrites an
equal value in the Python dict, so an association list is faithful.) -/
def fetch_categories (api : Api) (vs : String) : List String → Except PyErr (List (String × List String))
  | [] => .ok []
  | c :: rest =>
    match api vs c with
    | .error e => .error (.temporaryError ("Failed to fetch from coingecko: " ++ e))
    | .ok markets =>
      match fetch_categories api vs rest with
      | .error err => .error err
      | .ok tail => .ok ((c, markets.map py_upper) :: tail)

/-- Embedding of `_fetch_filter_lists` (lines 195-217): build the whole snapshot in a
local variable, `include` categories first, then `exclude`; the first
provider failure aborts the whole fetch and the partial snapshot is
discarded (it was never stored anywhere). -/
def fetch_filter_lists (cfg : FilterConfig) (api : Api) : Except PyErr Snapshot :=
  match fetch_categories api cfg.vs_currency cfg.include_cats with
  | .error e => .error e
  | .ok inc =>
    match fetch_categories api cfg.vs_currency cfg.exclude_cats with
    | .error e => .error e
    | .ok exc => .ok ⟨inc, exc⟩

/-- State of `self._filters_cache` (`TTLCache(maxsize=1, ttl=refresh_period)`)
holding at most the `'single_item'` entry together with its expiry time,
plus an instrumentation counter of completed fetch cycles. -/
structure CacheState where
  cache : Option (Snapshot × Nat)
  fetch_count : Nat
deriving Repr, DecidableEq

/-- Embedding of `self._filters_cache.get('single_item', None)`: a stored entry
(stored with `expire = timer() + ttl`) counts as expired exactly when
`expire < timer()`, so it is still served at `now = expire` and treated
as absent — and evicted, never to be served again — once `now` exceeds
it.  Stored snapshots are Python dicts with the two keys
`include`/`exclude`, hence always truthy, so the code's
`if not filter_lists` test is exactly the `None` test modelled here. -/
def cache_lookup (st : CacheState) (now : Nat) : Option Snapshot × CacheState :=
  match st.cache with
  | some (v, exp) => if exp < now then (none, { st with cache := none }) else (some v, st)
  | none => (none, st)

/-- Embedding of `_cached_filter_lists` (lines 182-193): serve the cached snapshot if
present and fresh; otherwise run a full fetch and, only on success, store
the new snapshot with expiry `now + refresh_period` (TTLCache sets
`expires = timer() + ttl` on assignment).  A failed fetch stores
nothing. -/
def cached_filter_lists (cfg : FilterConfig) (api : Api) (st : CacheState) (now : Nat) :
    Except PyErr Snapshot × CacheState :=
  match cache_lookup st now with
  | (some v, st') => (.ok v, st')
  | (none, st') =>
    match fetch_filter_lists cfg api with
    | .error e => (.error e, st')
    | .ok v =>
      (.ok v, { cache := some (v, now + cfg.refresh_period),
                fetch_count := st'.fetch_count + 1 })

/-- The `(filter, category)` check sequence of `_filter_pair`'s nested
loops, in dict insertion order: all `include` categories first, then all
`exclude` categories. -/
def checks (cfg : FilterConfig) : List (RuleKind × String) :=
  cfg.include_cats.map (fun c => (RuleKind.include_rule, c)) ++
  cfg.exclude_cats.map (fun c => (RuleKind.exclude_rule, c))

/-- Lookup `filter_lists[filter]`: the per-kind inner dict of the snapshot. -/
def rule_lists (snap : Snapshot) : RuleKind → List (String × List String)
  | .include_rule => snap.include_lists
  | .exclude_rule => snap.exclude_lists

/-- The rule lambdas installed in `__init__`:
`include: lambda coin, coin_list: coin in coin_list`,
`exclude: lambda coin, coin_list: coin not in coin_list`.
`true` means the check passes (the pair is not filtered by it). -/
def rule_pass (k : RuleKind) (base : String) (coin_list : List String) : Bool :=
  match k with
  | .include_rule => coin_list.contains base
  | .exclude_rule => !(coin_list.contains base)

/-- The check loop of `_filter_pair` (lines 173-179): walk the checks in
order; `filter_lists[filter][category]` raises `KeyError` when the
category is missing; on the first failing rule, log the one reason and
return it (the Python code returns `True` there); if all checks pass
return `none` (Python `False`). -/
def run_checks (snap : Snapshot) (base : String) :
    List (RuleKind × String) → Except PyErr (Option (RuleKind × String))
  | [] => .ok none
  | (k, c) :: rest =>
    match List.lookup c (rule_lists snap k) with
    | none => .error (.keyError c)
    | some coin_list =>
      if rule_pass k base coin_list then run_checks snap base rest
      else .ok (some (k, c))

/-- Embedding of `_filter_pair`, refined to also report the single `(filter, category)`
reason logged for an exclusion: `some (k, c)` means the pair is filtered
out and `(k, c)` is the triggering check; `none` means it is kept. -/
def filter_pair_reason (cfg : FilterConfig) (base_of : String → String) (snap : Snapshot)
    (pair : String) : Except PyErr (Option (RuleKind × String)) :=
  run_checks snap (base_of pair) (checks cfg)

/-- Embedding of `_filter_pair` (lines 160-179): `True` iff the pair is filtered out. -/
def filter_pair (cfg : FilterConfig) (base_of : String → String) (snap : Snapshot)
    (pair : String) : Except PyErr Bool :=
  (filter_pair_reason cfg base_of snap pair).map Option.isSome

/-- Predicate used in the `find?` characterisation of `_filter_pair`:
the check `(k, c)` fails for this base asset (looking the category up in
the snapshot, with the empty list for an absent category). -/
def check_fails (snap : Snapshot) (base : String) (kc : RuleKind × String) : Bool :=
  !(rule_pass kc.1 base ((List.lookup kc.2 (rule_lists snap kc.1)).getD []))

/-- The boolean verdict of `_filter_pair` as a total function (meaningful
whenever the snapshot contains every configured category, in which case
`filter_pair` returns `.ok` of exactly this value). -/
def dropped (cfg : FilterConfig) (base_of : String → String) (snap : Snapshot)
    (p : String) : Bool :=
  ((checks cfg).find? (check_fails snap (base_of p))).isSome

/-- The mutation loop of `filter_pairlist` (lines 152-155):
`orig_pairlist = deepcopy(pairlist); for pair in orig_pairlist: if
self._filter_pair(pair, filter_lists): pairlist.remove(pair)`.
`acc` is the current contents of the caller's list object and `todo` the
copy being iterated.  `list.remove` deletes the first occurrence and
raises `ValueError` when the value is absent.  On an exception the loop
stops with the list as mutated so far. -/
def remove_loop (cfg : FilterConfig) (base_of : String → String) (snap : Snapshot) :
    List String → List String → List String × Option PyErr
  | acc, [] => (acc, none)
  | acc, p :: rest =>
    match filter_pair cfg base_of snap p with
    | .error e => (acc, some e)
    | .ok true =>
      if acc.contains p then remove_loop cfg base_of snap (acc.erase p) rest
      else (acc, some (.valueError p))
    | .ok false => remove_loop cfg base_of snap acc rest

/-- Result of one `filter_pairlist` call: the returned value (or raised
exception), the contents of the caller's list object after the call
(Python mutates and returns the very object it was passed), and the
cache state after the call. -/
structure CallResult where
  ret : Except PyErr (List String)
  caller_list : List String
  state : CacheState
deriving Repr

/-- Embedding of `filter_pairlist` (lines 128-158).  Disabled: return the input
untouched.  On a `TemporaryError` from the cache with
`ignore_failures=true`, the code first evaluates
`logger.warning("... Accepting pair '%s', ...", pair)`; `pair` is a local
of this function (it is assigned only by the later `for` loop), so the
argument lookup raises `UnboundLocalError` (a `NameError`) before the
fail-open `return pairlist` is reached.  With `ignore_failures=false` the
`TemporaryError` is re-raised.  On success, run the removal loop and
return the (mutated) input list object. -/
def filter_pairlist (cfg : FilterConfig) (base_of : String → String) (api : Api)
    (st : CacheState) (now : Nat) (pairlist : List String) : CallResult :=
  if cfg.enabled = false then ⟨.ok pairlist, pairlist, st⟩
  else
    match cached_filter_lists cfg api st now with
    | (.error (.temporaryError m), st') =>
      if cfg.ignore_failures then ⟨.error (.nameError "pair"), pairlist, st'⟩
      else ⟨.error (.temporaryError m), pairlist, st'⟩
    | (.error e, st') => ⟨.error e, pairlist, st'⟩
    | (.ok filter_lists, st') =>
      match remove_loop cfg base_of filter_lists pairlist pairlist with
      | (final, some e) => ⟨.error e, final, st'⟩
      | (final, none) => ⟨.ok final, final, st'⟩

/-- Embedding of `gen_pairlist` (lines 105-125).  `tickers` is modelled as the list of
`(key, value['symbol'])` entries of the tickers dict.  On a
`TemporaryError` with `ignore_failures=true` the warning at line 113-114
references the name `pair`, which is not defined anywhere in this
function, so a `NameError` is raised before `return []` is reached; with
`ignore_failures=false` the `TemporaryError` is re-raised.  On success,
candidates are the ticker symbols whose pair key has the configured stake
currency as quote, handed to `filter_pairlist` (whose own cache call is
served from the now-populated cache). -/
def gen_pairlist (cfg : FilterConfig) (base_of quote_of : String → String) (api : Api)
    (st : CacheState) (now : Nat) (tickers : List (String × String)) :
    Except PyErr (List String) × CacheState :=
  match cached_filter_lists cfg api st now with
  | (.error (.temporaryError m), st') =>
    if cfg.ignore_failures then (.error (.nameError "pair"), st')
    else (.error (.temporaryError m), st')
  | (.error e, st') => (.error e, st')
  | (.ok _, st') =>
    let pl := (tickers.filter (fun kv => quote_of kv.1 == cfg.stake_currency)).map
      (fun kv => kv.2)
    let r := filter_pairlist cfg base_of api st' now pl
    (r.ret, r.state)

/-- The snapshot holds an entry for every configured category of the
matching rule kind (always true of snapshots built by
`fetch_filter_lists` from the same configuration). -/
def snapshot_complete (cfg : FilterConfig) (snap : Snapshot) : Prop :=
  (∀ c ∈ cfg.include_cats, (List.lookup c snap.include_lists).isSome = true) ∧
  (∀ c ∈ cfg.exclude_cats, (List.lookup c snap.exclude_lists).isSome = true)

/-- Membership of a base asset in the symbol list stored for a category
(the empty list when the category is absent). -/
def base_in (lists : List (String × List String)) (c : String) (base : String) : Bool :=
  ((List.lookup c lists).getD []).contains base

/-! Helper lemmas relating the embedded functions. -/

theorem checks_lookup_isSome (cfg : FilterConfig) (snap : Snapshot)
    (hc : snapshot_complete cfg snap) :
    ∀ kc ∈ checks cfg, (List.lookup kc.2 (rule_lists snap kc.1)).isSome = true := by
  intro kc hkc
  rcases List.mem_append.mp hkc with hmem | hmem
  · obtain ⟨c, hcmem, rfl⟩ := List.mem_map.mp hmem
    exact hc.1 c hcmem
  · obtain ⟨c, hcmem, rfl⟩ := List.mem_map.mp hmem
    exact hc.2 c hcmem

theorem run_checks_eq_find (snap : Snapshot) (base : String) (cl : List (RuleKind × String))
    (h : ∀ kc ∈ cl, (List.lookup kc.2 (rule_lists snap kc.1)).isSome = true) :
    run_checks snap base cl = .ok (cl.find? (check_fails snap base)) := by
  induction cl with
  | nil => rfl
  | cons kc rest ih =>
    obtain ⟨k, c⟩ := kc
    have hk := h (k, c) (List.mem_cons_self _ _)
    obtain ⟨coin_list, hl⟩ := Option.isSome_iff_exists.mp hk
    have ih' := ih (fun kc hkc => h kc (List.mem_cons_of_mem _ hkc))
    by_cases hp : rule_pass k base coin_list = true
    · simp [run_checks, hl, hp, ih', List.find?_cons, check_fails]
    · simp [run_checks, hl, hp, List.find?_cons, check_fails]

theorem filter_pair_eq_dropped (cfg : FilterConfig) (base_of : String → String)
    (snap : Snapshot) (pair : String) (hc : snapshot_complete cfg snap) :
    filter_pair cfg base_of snap pair = .ok (dropped cfg base_of snap pair) := by
  unfold filter_pair filter_pair_reason dropped
  rw [run_checks_eq_find snap (base_of pair) (checks cfg) (checks_lookup_isSome cfg snap hc)]
  rfl

theorem dropped_iff (cfg : FilterConfig) (base_of : String → String) (snap : Snapshot)
    (p : String) :
    dropped cfg base_of snap p = true ↔
      (∃ c ∈ cfg.include_cats, ¬ base_in snap.include_lists c (base_of p) = true) ∨
      (∃ c ∈ cfg.exclude_cats, base_in snap.exclude_lists c (base_of p) = true) := by
  unfold dropped
  rw [List.find?_isSome]
  constructor
  · rintro ⟨kc, hmem, hfail⟩
    rcases List.mem_append.mp hmem with hmem | hmem
    · obtain ⟨c, hcmem, rfl⟩ := List.mem_map.mp hmem
      left
      refine ⟨c, hcmem, ?_⟩
      simpa [check_fails, rule_pass, rule_lists, base_in] using hfail
    · obtain ⟨c, hcmem, rfl⟩ := List.mem_map.mp hmem
      right
      refine ⟨c, hcmem, ?_⟩
      simpa [check_fails, rule_pass, rule_lists, base_in] using hfail
  · rintro (⟨c, hcmem, hm⟩ | ⟨c, hcmem, hm⟩)
    · refine ⟨(RuleKind.include_rule, c), ?_, ?_⟩
      · exact List.mem_append.mpr (Or.inl (List.mem_map.mpr ⟨c, hcmem, rfl⟩))
      · simpa [check_fails, rule_pass, rule_lists, base_in] using hm
    · refine ⟨(RuleKind.exclude_rule, c), ?_, ?_⟩
      · exact List.mem_append.mpr (Or.inr (List.mem_map.mpr ⟨c, hcmem, rfl⟩))
      · simpa [check_fails, rule_pass, rule_lists, base_in] using hm

theorem fetch_categories_lookup (api : Api) (vs : String) (cats : List String)
    (m : List (String × List String)) (h : fetch_categories api vs cats = .ok m) :
    ∀ c ∈ cats, (List.lookup c m).isSome = true := by
  induction cats generalizing m with
  | nil => intro c hc; exact absurd hc (List.not_mem_nil c)
  | cons c0 rest ih =>
    intro c hc
    unfold fetch_categories at h
    cases hapi : api vs c0 with
    | error e => rw [hapi] at h; exact absurd h (by simp)
    | ok markets =>
      rw [hapi] at h
      cases hrest : fetch_categories api vs rest with
      | error err => rw [hrest] at h; exact absurd h (by simp)
      | ok tail =>
        rw [hrest] at h
        simp only [Except.ok.injEq] at h
        subst h
        by_cases hcc : c = c0
        · subst hcc; simp [List.lookup]
        · rcases List.mem_cons.mp hc with h1 | h1
          · exact absurd h1 hcc
          · have hbeq : (c == c0) = false := by simpa using hcc
            rw [List.lookup, hbeq]
            exact ih tail hrest c h1

theorem fetch_categories_mem (api : Api) (vs : String) (cats : List String)
    (m : List (String × List String)) (h : fetch_categories api vs cats = .ok m) :
    ∀ c syms, (c, syms) ∈ m → ∃ ms, api vs c = .ok ms ∧ syms = ms.map py_upper := by
  induction cats generalizing m with
  | nil =>
    intro c syms hmem
    unfold fetch_categories at h
    simp only [Except.ok.injEq] at h
    subst h
    exact absurd hmem (List.not_mem_nil _)
  | cons c0 rest ih =>
    intro c syms hmem
    unfold fetch_categories at h
    cases hapi : api vs c0 with
    | error e => rw [hapi] at h; exact absurd h (by simp)
    | ok markets =>
      rw [hapi] at h
      cases hrest : fetch_categories api vs rest with
      | error err => rw [hrest] at h; exact absurd h (by simp)
      | ok tail =>
        rw [hrest] at h
        simp only [Except.ok.injEq] at h
        subst h
        rcases List.mem_cons.mp hmem with h1 | h1
        · injection h1 with hc1 hs1
          subst hc1; subst hs1
          exact ⟨markets, hapi, rfl⟩
        · exact ih tail hrest c syms h1

theorem fetch_filter_lists_complete (cfg : FilterConfig) (api : Api) (snap : Snapshot)
    (h : fetch_filter_lists cfg api = .ok snap) : snapshot_complete cfg snap := by
  unfold fetch_filter_lists at h
  cases hinc : fetch_categories api cfg.vs_currency cfg.include_cats with
  | error e => rw [hinc] at h; exact absurd h (by simp)
  | ok inc =>
    rw [hinc] at h
    cases hexc : fetch_categories api cfg.vs_currency cfg.exclude_cats with
    | error e => rw [hexc] at h; exact absurd h (by simp)
    | ok exc =>
      rw [hexc] at h
      simp only [Except.ok.injEq] at h
      subst h
      exact ⟨fetch_categories_lookup api cfg.vs_currency cfg.include_cats inc hinc,
             fetch_categories_lookup api cfg.vs_currency cfg.exclude_cats exc hexc⟩

theorem cache_lookup_none (st : CacheState) (now : Nat)
    (h : (cache_lookup st now).1 = none) : (cache_lookup st now).2.cache = none := by
  obtain ⟨cache, fc⟩ := st
  cases cache with
  | none => rfl
  | some ve =>
    obtain ⟨v, exp⟩ := ve
    by_cases hlt : exp < now
    · simp [cache_lookup, hlt]
    · simp [cache_lookup, hlt] at h

theorem remove_loop_filter (cfg : FilterConfig) (base_of : String → String) (snap : Snapshot)
    (hc : snapshot_complete cfg snap) :
    ∀ (todo kept : List String),
      (∀ q ∈ kept, dropped cfg base_of snap q = false) →
      remove_loop cfg base_of snap (kept ++ todo) todo =
        (kept ++ todo.filter (fun p => !(dropped cfg base_of snap p)), none) := by
  intro todo
  induction todo with
  | nil => intro kept _; simp [remove_loop]
  | cons p rest ih =>
    intro kept hkept
    have hfp := filter_pair_eq_dropped cfg base_of snap p hc
    by_cases hd : dropped cfg base_of snap p = true
    · have hpk : p ∉ kept := fun hmem => absurd hd (by simp [hkept p hmem])
      have hcontains : (kept ++ p :: rest).contains p = true := by simp
      have herase : (kept ++ p :: rest).erase p = kept ++ rest := by
        rw [List.erase_append_right _ hpk, List.erase_cons_head]
      have hstep : remove_loop cfg base_of snap (kept ++ p :: rest) (p :: rest)
          = remove_loop cfg base_of snap ((kept ++ p :: rest).erase p) rest := by
        simp [remove_loop, hfp, hd, hcontains]
      rw [hstep, herase, ih kept hkept]
      simp [List.filter_cons, hd]
    · have hd' : dropped cfg base_of snap p = false := by
        cases hdp : dropped cfg base_of snap p
        · rfl
        · exact absurd hdp hd
      have hkept' : ∀ q ∈ kept ++ [p], dropped cfg base_of snap q = false := by
        intro q hq
        rcases List.mem_append.mp hq with h1 | h1
        · exact hkept q h1
        · rcases List.mem_singleton.mp h1 with rfl
          exact hd'
      have hstep : remove_loop cfg base_of snap (kept ++ p :: rest) (p :: rest)
          = remove_loop cfg base_of snap (kept ++ p :: rest) rest := by
        simp [remove_loop, hfp, hd']
      rw [hstep, show kept ++ p :: rest = (kept ++ [p]) ++ rest by simp,
        ih (kept ++ [p]) hkept']
      simp [List.filter_cons, hd']

theorem remove_loop_all (cfg : FilterConfig) (base_of : String → String) (snap : Snapshot)
    (hc : snapshot_complete cfg snap) (l : List String) :
    remove_loop cfg base_of snap l l =
      (l.filter (fun p => !(dropped cfg base_of snap p)), none) := by
  simpa using remove_loop_filter cfg base_of snap hc l [] (by intro q hq; simp at hq)

theorem mem_of_lookup_eq_some {l : List (String × List String)} {k : String}
    {b : List String} (h : List.lookup k l = some b) : (k, b) ∈ l := by
  obtain ⟨l1, l2, rfl, -⟩ := List.lookup_eq_some_iff.mp h
  exact List.mem_append.mpr (Or.inr (List.mem_cons_self _ _))

theorem cache_lookup_of_none (st : CacheState) (now : Nat) (hst : st.cache = none) :
    cache_lookup st now = (none, st) := by
  unfold cache_lookup
  rw [hst]

theorem cached_filter_lists_error (cfg : FilterConfig) (api : Api) (st : CacheState)
    (now : Nat) (e : PyErr) (hmiss : (cache_lookup st now).1 = none)
    (hf : fetch_filter_lists cfg api = .error e) :
    cached_filter_lists cfg api st now = (.error e, (cache_lookup st now).2) := by
  rcases hE : cache_lookup st now with ⟨o, st2⟩
  rw [hE] at hmiss
  simp only at hmiss
  subst hmiss
  simp [cached_filter_lists, hE, hf]

theorem cached_filter_lists_ok (cfg : FilterConfig) (api : Api) (st : CacheState)
    (now : Nat) (v : Snapshot) (hmiss : (cache_lookup st now).1 = none)
    (hf : fetch_filter_lists cfg api = .ok v) :
    cached_filter_lists cfg api st now =
      (.ok v, { cache := some (v, now + cfg.refresh_period),
                fetch_count := ((cache_lookup st now).2).fetch_count + 1 }) := by
  rcases hE : cache_lookup st now with ⟨o, st2⟩
  rw [hE] at hmiss
  simp only at hmiss
  subst hmiss
  simp [cached_filter_lists, hE, hf]

theorem cached_filter_lists_hit (cfg : FilterConfig) (api : Api) (st : CacheState)
    (now : Nat) (v : Snapshot) (st2 : CacheState)
    (hhit : cache_lookup st now = (some v, st2)) :
    cached_filter_lists cfg api st now = (.ok v, st2) := by
  simp [cached_filter_lists, hhit]

/-! Concrete fixtures, following the worked example of the specification:
`include=["meme-token"]`, `exclude=["stablecoins"]`,
`meme-token={DOGE,SHIB}`, `stablecoins={USDT,USDC}`. -/

/-- Example configuration. -/
def cfg_example : FilterConfig :=
  { include_cats := ["meme-token"], exclude_cats := ["stablecoins"],
    ignore_failures := true, refresh_period := 86400,
    vs_currency := "usd", stake_currency := "USDT", enabled := true }

/-- Same configuration with `ignore_failures=false`. -/
def cfg_closed : FilterConfig :=
  { cfg_example with ignore_failures := false }

/-- A provider returning the example category data (lowercase, as the
coingecko API does). -/
def api_example : Api := fun _ c =>
  if c = "meme-token" then .ok ["doge", "shib"]
  else if c = "stablecoins" then .ok ["usdt", "usdc"]
  else .error "not found"

/-- A provider whose every call fails. -/
def api_fail : Api := fun _ _ => .error "HTTPError"

/-- Characters before the first `/`. -/
def chars_before_slash : List Char → List Char
  | [] => []
  | c :: rest => if c = '/' then [] else c :: chars_before_slash rest

/-- Characters after the first `/`. -/
def chars_after_slash : List Char → List Char
  | [] => []
  | c :: rest => if c = '/' then rest else chars_after_slash rest

/-- Base currency of a `BASE/QUOTE` pair string (exchange collaborator). -/
def base_of_slash (p : String) : String := ⟨chars_before_slash p.data⟩

/-- Quote currency of a `BASE/QUOTE` pair string (exchange collaborator). -/
def quote_of_slash (p : String) : String := ⟨chars_after_slash p.data⟩

/-- Cache state before any fetch. -/
def st_empty : CacheState := ⟨none, 0⟩

/-- The snapshot `fetch_filter_lists cfg_example api_example` produces. -/
def snap_example : Snapshot :=
  ⟨[("meme-token", ["DOGE", "SHIB"])], [("stablecoins", ["USDT", "USDC"])]⟩

/-- A cache state holding a previously fetched snapshot with expiry
time 10, hence expired (`expire < timer()`) at any time from 11 on. -/
def st_stale : CacheState := ⟨some (snap_example, 10), 1⟩

example : fetch_filter_lists cfg_example api_example = .ok snap_example := rfl

/-! Claim theorems. -/

/-- C1 (code bug): with `ignore_failures=true` and a provider failure,
both `filter_pairlist` and `gen_pairlist` are supposed to fail open
(return the input unchanged, resp. an empty pairlist) without raising;
instead the fail-open branch of each evaluates
`logger.warning("...'%s'...", pair)` where `pair` is an
undefined/unbound name, so both calls raise a `NameError` and produce no
return value at all. -/
theorem c1_fail_open_raises_name_error :
    (filter_pairlist cfg_example base_of_slash api_fail st_empty 0
        ["DOGE/USDT", "ETH/USDT"]).ret = .error (.nameError "pair") ∧
    (gen_pairlist cfg_example base_of_slash quote_of_slash api_fail st_empty 0
        [("DOGE/USDT", "DOGE/USDT")]).1 = .error (.nameError "pair") ∧
    cfg_example.ignore_failures = true := ⟨rfl, rfl, rfl⟩

/-- C2 (amended): on a cache miss, if any single category fetch fails
during the refresh then the `TemporaryError` propagates and no snapshot
(partial or otherwise) is stored — after the failed attempt the cache
holds nothing, because the refresh only ran once the TTL cache had
already dropped the expired entry; on a successful refresh the cache is
atomically replaced with the full new snapshot and a fresh expiry. -/
theorem c2_refresh_atomicity (cfg : FilterConfig) (api : Api) (st : CacheState) (now : Nat)
    (hmiss : (cache_lookup st now).1 = none) :
    (∀ m, fetch_filter_lists cfg api = .error (.temporaryError m) →
      cached_filter_lists cfg api st now =
        (.error (.temporaryError m), (cache_lookup st now).2) ∧
      ((cache_lookup st now).2).cache = none) ∧
    (∀ v, fetch_filter_lists cfg api = .ok v →
      cached_filter_lists cfg api st now =
        (.ok v, { cache := some (v, now + cfg.refresh_period),
                  fetch_count := ((cache_lookup st now).2).fetch_count + 1 })) := by
  constructor
  · intro m hf
    exact ⟨cached_filter_lists_error cfg api st now _ hmiss hf,
           cache_lookup_none st now hmiss⟩
  · intro v hf
    exact cached_filter_lists_ok cfg api st now v hmiss hf

/-- Witness for C2: concrete failing refresh on an empty cache, and a
concrete successful refresh. -/
theorem c2_refresh_atomicity_witness :
    cached_filter_lists cfg_example api_fail st_empty 0 =
      (.error (.temporaryError "Failed to fetch from coingecko: HTTPError"), st_empty) ∧
    cached_filter_lists cfg_example api_example st_empty 0 =
      (.ok snap_example, { cache := some (snap_example, 86400), fetch_count := 1 }) :=
  ⟨((c2_refresh_atomicity cfg_example api_fail st_empty 0 rfl).1
      "Failed to fetch from coingecko: HTTPError" rfl).1,
   (c2_refresh_atomicity cfg_example api_example st_empty 0 rfl).2 snap_example rfl⟩

/-- Counterexample for C2 as stated: a previously fetched snapshot whose
TTL has lapsed does NOT survive a failed refresh attempt.  At time 11
the entry with expiry 10 is expired (`expire < timer()`), so a refresh
runs; it fails, the error propagates, and the cache is left empty: the
stale snapshot has been evicted by the TTL cache and is never served
again. -/
theorem c2_stale_not_kept_counterexample :
    st_stale.cache = some (snap_example, 10) ∧
    (cached_filter_lists cfg_example api_fail st_stale 11).1 =
      .error (.temporaryError "Failed to fetch from coingecko: HTTPError") ∧
    (cached_filter_lists cfg_example api_fail st_stale 11).2.cache = none :=
  ⟨rfl, rfl, rfl⟩

/-- C4: with `ignore_failures=false`, a provider failure during snapshot
retrieval propagates the `TemporaryError` out of both `filter_pairlist`
and `gen_pairlist`, and no filtered output is produced (the caller's
list is left untouched). -/
theorem c4_fail_closed (cfg : FilterConfig) (base_of quote_of : String → String) (api : Api)
    (st : CacheState) (now : Nat) (l : List String) (tickers : List (String × String))
    (m : String)
    (hif : cfg.ignore_failures = false) (hen : cfg.enabled = true)
    (hmiss : (cache_lookup st now).1 = none)
    (hfail : fetch_filter_lists cfg api = .error (.temporaryError m)) :
    (filter_pairlist cfg base_of api st now l).ret = .error (.temporaryError m) ∧
    (filter_pairlist cfg base_of api st now l).caller_list = l ∧
    (gen_pairlist cfg base_of quote_of api st now tickers).1 =
      .error (.temporaryError m) := by
  have hcached := cached_filter_lists_error cfg api st now _ hmiss hfail
  refine ⟨?_, ?_, ?_⟩
  · simp [filter_pairlist, hen, hcached, hif]
  · simp [filter_pairlist, hen, hcached, hif]
  · simp [gen_pairlist, hcached, hif]

/-- Witness for C4: the propagated error at a concrete failing provider
with `ignore_failures=false`. -/
theorem c4_fail_closed_witness :
    (filter_pairlist cfg_closed base_of_slash api_fail st_empty 0
        ["DOGE/USDT"]).ret =
      .error (.temporaryError "Failed to fetch from coingecko: HTTPError") ∧
    (filter_pairlist cfg_closed base_of_slash api_fail st_empty 0
        ["DOGE/USDT"]).caller_list = ["DOGE/USDT"] ∧
    (gen_pairlist cfg_closed base_of_slash quote_of_slash api_fail st_empty 0
        [("DOGE/USDT", "DOGE/USDT")]).1 =
      .error (.temporaryError "Failed to fetch from coingecko: HTTPError") :=
  c4_fail_closed cfg_closed base_of_slash quote_of_slash api_fail st_empty 0
    ["DOGE/USDT"] [("DOGE/USDT", "DOGE/USDT")]
    "Failed to fetch from coingecko: HTTPError" rfl rfl rfl rfl

/-- Counterexample for C5 as stated: `include=[1]` is not a list of
strings, yet construction succeeds — the constructor only checks
`isinstance(..., list)` and never inspects the elements. -/
theorem c5_nonstring_list_accepted_counterexample :
    category_filter_init_check (.pylist [.pyint 1]) (.pylist []) = .ok () ∧
    spec_isListOfStrings (.pylist [.pyint 1]) = false := ⟨rfl, rfl⟩

/-- C5 (amended): construction succeeds exactly when both `include` and
`exclude` are lists (of anything — element types are not checked); a
non-list value of either makes construction fail with an
`OperationalException`, before any network activity (the check is a pure
function of the configuration). -/
theorem c5_init_check_list_only (inc exc : PyVal) :
    category_filter_init_check inc exc = .ok () ↔
      isinstance_list inc = true ∧ isinstance_list exc = true := by
  cases inc <;> cases exc <;> simp [category_filter_init_check, isinstance_list]

/-- C3: given a snapshot containing all configured categories, a pair is
dropped (`_filter_pair` returns `True`) iff its base asset is missing
from at least one include category or present in at least one exclude
category; and a base asset absent from every symbol list of the snapshot
is dropped iff the include rule names at least one category (an exclude
rule alone never drops it). -/
theorem c3_filter_rule_semantics (cfg : FilterConfig) (base_of : String → String)
    (snap : Snapshot) (pair : String) (hc : snapshot_complete cfg snap) :
    (filter_pair cfg base_of snap pair = .ok true ↔
      (∃ c ∈ cfg.include_cats, ¬ base_in snap.include_lists c (base_of pair) = true) ∨
      (∃ c ∈ cfg.exclude_cats, base_in snap.exclude_lists c (base_of pair) = true)) ∧
    ((∀ c syms, (c, syms) ∈ snap.include_lists ++ snap.exclude_lists →
        base_of pair ∉ syms) →
      (filter_pair cfg base_of snap pair = .ok true ↔ cfg.include_cats ≠ [])) := by
  have hfp := filter_pair_eq_dropped cfg base_of snap pair hc
  have hiff : filter_pair cfg base_of snap pair = .ok true ↔
      dropped cfg base_of snap pair = true := by rw [hfp]; simp
  constructor
  · rw [hiff]
    exact dropped_iff cfg base_of snap pair
  · intro habsent
    rw [hiff, dropped_iff]
    constructor
    · rintro (⟨c, hcmem, _⟩ | ⟨c, hcmem, hm⟩)
      · intro hnil
        rw [hnil] at hcmem
        exact absurd hcmem (List.not_mem_nil c)
      · exfalso
        obtain ⟨syms, hsyms⟩ := Option.isSome_iff_exists.mp (hc.2 c hcmem)
        have hnotin := habsent c syms
          (List.mem_append.mpr (Or.inr (mem_of_lookup_eq_some hsyms)))
        rw [base_in, hsyms] at hm
        simp at hm
        exact hnotin hm
    · intro hne
      obtain ⟨c, hcmem⟩ := List.exists_mem_of_ne_nil cfg.include_cats hne
      left
      refine ⟨c, hcmem, ?_⟩
      obtain ⟨syms, hsyms⟩ := Option.isSome_iff_exists.mp (hc.1 c hcmem)
      have hnotin := habsent c syms
        (List.mem_append.mpr (Or.inl (mem_of_lookup_eq_some hsyms)))
      rw [base_in, hsyms]
      simp [hnotin]

/-- Witness for C3: `ETH/USDT` is dropped under the example data because
`ETH` is missing from the include category `meme-token`. -/
theorem c3_filter_rule_semantics_witness :
    filter_pair cfg_example base_of_slash snap_example "ETH/USDT" = .ok true :=
  (c3_filter_rule_semantics cfg_example base_of_slash snap_example "ETH/USDT"
      ⟨by decide, by decide⟩).1.mpr (Or.inl ⟨"meme-token", by decide, by decide⟩)

/-- C6: the check sequence walks all include categories first, then all
exclude categories, each in configured order; the engine returns at the
first failing check, so at most one `(rule kind, category)` reason is
reported per exclusion (it is the first failing element of the check
sequence); and the keep/drop verdict is invariant under any permutation
of the `(rule, category)` checks. -/
theorem c6_eval_order_short_circuit (cfg : FilterConfig) (base_of : String → String)
    (snap : Snapshot) (pair : String) (hc : snapshot_complete cfg snap) :
    filter_pair_reason cfg base_of snap pair =
      .ok ((checks cfg).find? (check_fails snap (base_of pair))) ∧
    checks cfg = cfg.include_cats.map (fun c => (RuleKind.include_rule, c)) ++
      cfg.exclude_cats.map (fun c => (RuleKind.exclude_rule, c)) ∧
    (∀ l2 : List (RuleKind × String), l2.Perm (checks cfg) →
      (l2.find? (check_fails snap (base_of pair))).isSome =
        ((checks cfg).find? (check_fails snap (base_of pair))).isSome) := by
  refine ⟨run_checks_eq_find snap (base_of pair) (checks cfg)
      (checks_lookup_isSome cfg snap hc), rfl, ?_⟩
  intro l2 hperm
  rw [Bool.eq_iff_iff, List.find?_isSome, List.find?_isSome]
  constructor
  · rintro ⟨x, hx, hpx⟩
    exact ⟨x, hperm.mem_iff.mp hx, hpx⟩
  · rintro ⟨x, hx, hpx⟩
    exact ⟨x, hperm.mem_iff.mpr hx, hpx⟩

/-- Witness for C6: with both rules configured, the reported reason for
`USDT/USDC` is the include check on `meme-token` — the first failing
check, reported before the (also failing) exclude check on
`stablecoins` ever runs. -/
theorem c6_eval_order_short_circuit_witness :
    filter_pair_reason cfg_example base_of_slash snap_example "USDT/USDC" =
      .ok (some (RuleKind.include_rule, "meme-token")) := by
  rw [(c6_eval_order_short_circuit cfg_example base_of_slash snap_example "USDT/USDC"
    ⟨by decide, by decide⟩).1]
  rfl

/-- C7: when enabled and the snapshot is retrieved successfully,
`filter_pairlist` returns exactly the subsequence of the input whose
pairs the engine does not exclude (`List.filter` preserves the relative
order of survivors), where the engine's verdict on each pair is
`dropped`; a disabled filter returns its input unchanged. -/
theorem c7_order_preservation (cfg : FilterConfig) (base_of : String → String) (api : Api)
    (st : CacheState) (now : Nat) (pairlist : List String) (snap : Snapshot)
    (st2 : CacheState)
    (hen : cfg.enabled = true)
    (hok : cached_filter_lists cfg api st now = (.ok snap, st2))
    (hc : snapshot_complete cfg snap) :
    filter_pairlist cfg base_of api st now pairlist =
      ⟨.ok (pairlist.filter (fun p => !(dropped cfg base_of snap p))),
       pairlist.filter (fun p => !(dropped cfg base_of snap p)), st2⟩ ∧
    (∀ q, filter_pair cfg base_of snap q = .ok (dropped cfg base_of snap q)) ∧
    (∀ (cfg2 : FilterConfig) (b2 : String → String) (a2 : Api) (s2 : CacheState)
        (n2 : Nat) (l2 : List String), cfg2.enabled = false →
      filter_pairlist cfg2 b2 a2 s2 n2 l2 = ⟨.ok l2, l2, s2⟩) := by
  refine ⟨?_, fun q => filter_pair_eq_dropped cfg base_of snap q hc, ?_⟩
  · simp [filter_pairlist, hen, hok, remove_loop_all cfg base_of snap hc pairlist]
  · intro cfg2 b2 a2 s2 n2 l2 hdis
    simp [filter_pairlist, hdis]

/-- Witness for C7: the spec's worked example, reproducing its expected
output `["DOGE/USDT", "SHIB/BTC"]`. -/
theorem c7_order_preservation_witness :
    filter_pairlist cfg_example base_of_slash api_example st_empty 0
        ["DOGE/USDT", "USDT/USDC", "SHIB/BTC", "ETH/USDT"] =
      ⟨.ok ["DOGE/USDT", "SHIB/BTC"], ["DOGE/USDT", "SHIB/BTC"],
       ⟨some (snap_example, 86400), 1⟩⟩ := by
  rw [(c7_order_preservation cfg_example base_of_slash api_example st_empty 0
    ["DOGE/USDT", "USDT/USDC", "SHIB/BTC", "ETH/USDT"] snap_example
    ⟨some (snap_example, 86400), 1⟩ rfl rfl ⟨by decide, by decide⟩).1]
  rfl

/-- C8: starting from an empty cache within one TTL window (time does
not advance, positive refresh period), two successive applications of
the filter yield the same result list both times, and together trigger
exactly one fetch cycle: the first call fetches once and the second is
served from the cache, changing nothing. -/
theorem c8_idempotent_single_fetch (cfg : FilterConfig) (base_of : String → String)
    (api : Api) (now : Nat) (l : List String) (snap : Snapshot) (st : CacheState)
    (hen : cfg.enabled = true) (_hrp : 0 < cfg.refresh_period)
    (hst : st.cache = none)
    (hfetch : fetch_filter_lists cfg api = .ok snap) :
    ∃ l1, (filter_pairlist cfg base_of api st now l).ret = .ok l1 ∧
      (filter_pairlist cfg base_of api st now l).caller_list = l1 ∧
      (filter_pairlist cfg base_of api st now l).state.fetch_count = st.fetch_count + 1 ∧
      filter_pairlist cfg base_of api (filter_pairlist cfg base_of api st now l).state
          now l1 =
        ⟨.ok l1, l1, (filter_pairlist cfg base_of api st now l).state⟩ := by
  have hc := fetch_filter_lists_complete cfg api snap hfetch
  have hcl := cache_lookup_of_none st now hst
  have hmiss : (cache_lookup st now).1 = none := by rw [hcl]
  have hcached := cached_filter_lists_ok cfg api st now snap hmiss hfetch
  rw [hcl] at hcached
  set l1 := l.filter (fun p => !(dropped cfg base_of snap p)) with hl1
  set st1 : CacheState := ⟨some (snap, now + cfg.refresh_period), st.fetch_count + 1⟩
    with hst1
  have hfirst : filter_pairlist cfg base_of api st now l = ⟨.ok l1, l1, st1⟩ := by
    simp [filter_pairlist, hen, hcached, remove_loop_all cfg base_of snap hc l, hl1, hst1]
  have hhit : cache_lookup st1 now = (some snap, st1) := by
    have hnlt : ¬ (now + cfg.refresh_period < now) :=
      Nat.not_lt.mpr (Nat.le_add_right now cfg.refresh_period)
    simp [cache_lookup, hst1, hnlt]
  have hcached2 : cached_filter_lists cfg api st1 now = (.ok snap, st1) :=
    cached_filter_lists_hit cfg api st1 now snap st1 hhit
  have hl1f : l1.filter (fun p => !(dropped cfg base_of snap p)) = l1 := by
    apply List.filter_eq_self.mpr
    intro a ha
    rw [hl1] at ha
    have hpa := List.of_mem_filter ha
    exact hpa
  have hsecond : filter_pairlist cfg base_of api st1 now l1 = ⟨.ok l1, l1, st1⟩ := by
    have hrl := remove_loop_all cfg base_of snap hc l1
    rw [hl1f] at hrl
    simp [filter_pairlist, hen, hcached2, hrl]
  have hstate : (filter_pairlist cfg base_of api st now l).state = st1 := by rw [hfirst]
  refine ⟨l1, by rw [hfirst], by rw [hfirst], by rw [hfirst], ?_⟩
  rw [hstate]
  exact hsecond

/-- Witness for C8 at the example configuration and provider. -/
theorem c8_idempotent_single_fetch_witness :
    ∃ l1, (filter_pairlist cfg_example base_of_slash api_example st_empty 0
        ["DOGE/USDT", "ETH/USDT"]).ret = .ok l1 ∧
      (filter_pairlist cfg_example base_of_slash api_example st_empty 0
        ["DOGE/USDT", "ETH/USDT"]).caller_list = l1 ∧
      (filter_pairlist cfg_example base_of_slash api_example st_empty 0
        ["DOGE/USDT", "ETH/USDT"]).state.fetch_count = st_empty.fetch_count + 1 ∧
      filter_pairlist cfg_example base_of_slash api_example
          (filter_pairlist cfg_example base_of_slash api_example st_empty 0
            ["DOGE/USDT", "ETH/USDT"]).state 0 l1 =
        ⟨.ok l1, l1, (filter_pairlist cfg_example base_of_slash api_example st_empty 0
            ["DOGE/USDT", "ETH/USDT"]).state⟩ :=
  c8_idempotent_single_fetch cfg_example base_of_slash api_example 0
    ["DOGE/USDT", "ETH/USDT"] snap_example st_empty rfl (by decide) rfl rfl

/-- C9: every symbol list stored in a successfully fetched snapshot is
exactly the provider's symbol list mapped through `str.upper()`, so each
stored symbol is the uppercase form of a provider symbol and all
membership tests of the engine run against uppercase symbol sets. -/
theorem c9_uppercase_invariant (cfg : FilterConfig) (api : Api) (snap : Snapshot)
    (h : fetch_filter_lists cfg api = .ok snap) :
    ∀ (k : RuleKind) (c : String) (syms : List String),
      (c, syms) ∈ rule_lists snap k →
      ∃ ms, api cfg.vs_currency c = .ok ms ∧ syms = ms.map py_upper := by
  unfold fetch_filter_lists at h
  cases hinc : fetch_categories api cfg.vs_currency cfg.include_cats with
  | error e => rw [hinc] at h; exact absurd h (by simp)
  | ok inc =>
    rw [hinc] at h
    cases hexc : fetch_categories api cfg.vs_currency cfg.exclude_cats with
    | error e => rw [hexc] at h; exact absurd h (by simp)
    | ok exc =>
      rw [hexc] at h
      simp only [Except.ok.injEq] at h
      subst h
      intro k c syms hmem
      cases k with
      | include_rule =>
        exact fetch_categories_mem api cfg.vs_currency cfg.include_cats inc hinc
          c syms hmem
      | exclude_rule =>
        exact fetch_categories_mem api cfg.vs_currency cfg.exclude_cats exc hexc
          c syms hmem

/-- Witness for C9: the stored `meme-token` list is the uppercase image
of the provider's lowercase symbols. -/
theorem c9_uppercase_invariant_witness :
    ∃ ms, api_example cfg_example.vs_currency "meme-token" = .ok ms ∧
      ["DOGE", "SHIB"] = ms.map py_upper :=
  c9_uppercase_invariant cfg_example api_example snap_example rfl
    RuleKind.include_rule "meme-token" ["DOGE", "SHIB"] (by decide)

/-- C10: on the successful enabled path, `filter_pairlist` mutates the
very list object the caller passed in (removing each excluded pair) and
returns that same object: afterwards the caller's list equals the
filtered list, excluded pairs are gone from it, and — whenever at least
one input pair was excluded — it is no longer the original input. -/
theorem c10_inplace_mutation (cfg : FilterConfig) (base_of : String → String) (api : Api)
    (st : CacheState) (now : Nat) (pairlist : List String) (snap : Snapshot)
    (st2 : CacheState) (p : String)
    (hen : cfg.enabled = true)
    (hok : cached_filter_lists cfg api st now = (.ok snap, st2))
    (hc : snapshot_complete cfg snap)
    (hp : p ∈ pairlist) (hdrop : dropped cfg base_of snap p = true) :
    (filter_pairlist cfg base_of api st now pairlist).caller_list =
        pairlist.filter (fun q => !(dropped cfg base_of snap q)) ∧
    (filter_pairlist cfg base_of api st now pairlist).ret =
        .ok ((filter_pairlist cfg base_of api st now pairlist).caller_list) ∧
    p ∉ (filter_pairlist cfg base_of api st now pairlist).caller_list ∧
    (filter_pairlist cfg base_of api st now pairlist).caller_list ≠ pairlist := by
  have hfull : filter_pairlist cfg base_of api st now pairlist =
      ⟨.ok (pairlist.filter (fun q => !(dropped cfg base_of snap q))),
       pairlist.filter (fun q => !(dropped cfg base_of snap q)), st2⟩ := by
    simp [filter_pairlist, hen, hok, remove_loop_all cfg base_of snap hc pairlist]
  rw [hfull]
  have hnotmem : p ∉ pairlist.filter (fun q => !(dropped cfg base_of snap q)) := by
    intro hmem
    have hq := List.of_mem_filter hmem
    rw [hdrop] at hq
    simp at hq
  refine ⟨rfl, rfl, hnotmem, ?_⟩
  intro heq
  apply hnotmem
  have heq2 : pairlist.filter (fun q => !(dropped cfg base_of snap q)) = pairlist := heq
  rw [heq2]
  exact hp

/-- Witness for C10: after the call on the example input, the caller's
list object has lost `USDT/USDC` and `ETH/USDT` and is no longer the
original input list. -/
theorem c10_inplace_mutation_witness :
    (filter_pairlist cfg_example base_of_slash api_example st_empty 0
        ["DOGE/USDT", "USDT/USDC", "SHIB/BTC", "ETH/USDT"]).caller_list ≠
      ["DOGE/USDT", "USDT/USDC", "SHIB/BTC", "ETH/USDT"] :=
  (c10_inplace_mutation cfg_example base_of_slash api_example st_empty 0
      ["DOGE/USDT", "USDT/USDC", "SHIB/BTC", "ETH/USDT"] snap_example
      ⟨some (snap_example, 86400), 1⟩ "ETH/USDT"
      rfl rfl ⟨by decide, by decide⟩ (by decide) (by decide)).2.2.2

end CategoryFilter
